import Mathlib

set_option maxRecDepth 40000

/-!
Shallow embedding of `telegram_audio_bot.py` (a Telegram audio-transcription
bot) and proofs about it.

Modelling conventions:
* Python `str` values are Lean `String`s; where the code indexes or splits a
  string by code points, we work on `String.data` (the code-point list), which
  matches Python's `str` semantics.
* Python truthiness of a string (`if s:`) is `s != ""`.
* Effectful statements of the handler are modelled as an ordered list of
  events; an oracle says which statement (if any) raises, matching the
  single `try/except` that wraps the handler body.
-/

/-! ## Python string primitives used by the source -/

/-- Python `str.split(sep)` for a single-character separator, on code-point
lists. `"".split(c) = [""]`, and separators at the ends produce empty parts,
exactly as in Python. -/
def splitOnChar (c : Char) : List Char → List (List Char)
  | [] => [[]]
  | x :: xs =>
    let r := splitOnChar c xs
    if x = c then [] :: r
    else
      match r with
      | [] => [[x]]
      | y :: ys => (x :: y) :: ys

/-- Python `s.split(sep)` (single-character separator) on `String`. -/
def pySplit (s : String) (c : Char) : List String :=
  (splitOnChar c s.data).map String.mk

/-- Python `s.startswith(p)`. -/
def pyStartsWith (s p : String) : Bool :=
  p.data.isPrefixOf s.data

/-- Python truthiness of `s.strip()`: true iff `s` has a non-whitespace
character (the exact whitespace set is immaterial to the claims). -/
def pyStripTruthy (s : String) : Bool :=
  s.data.any (fun c => !c.isWhitespace)

/-! ## Attachment classifier (audio_handler, lines 256-272)

```python
if event.message.text and event.message.text.startswith("/"):
    return
if not (event.message.voice
        or (event.message.document
            and event.message.document.mime_type
            and event.message.document.mime_type.startswith("audio/"))):
    return
```
-/

/-- A generic document attachment; `mime_type` may be absent (Python `None`). -/
structure MediaDocument where
  mime_type : Option String
  deriving DecidableEq

/-- The fields of an inbound Telegram message that the handler inspects.
`text` is `""` when the message has no text/caption (Telethon convention);
`voice` says whether a voice-note attachment is present. -/
structure Message where
  text : String
  voice : Bool
  document : Option MediaDocument
  deriving DecidableEq

/-- `event.message.text and event.message.text.startswith("/")`. -/
def isCommandText (m : Message) : Bool :=
  (m.text != "") && pyStartsWith m.text "/"

/-- `document and document.mime_type and document.mime_type.startswith("audio/")`. -/
def docMimeIsAudio : Option MediaDocument → Bool
  | none => false
  | some d =>
    match d.mime_type with
    | none => false
    | some mt => (mt != "") && pyStartsWith mt "audio/"

/-- The classifier: the handler proceeds past its two early returns iff this
is `true` (lines 260-272 of the source). -/
def admitted (m : Message) : Bool :=
  if isCommandText m then false
  else m.voice || docMimeIsAudio m.document

/-! ## Working-file naming (audio_handler, lines 278-309) -/

/-- `TEMP_DIR = "temp_files"`. -/
def TEMP_DIR : String := "temp_files"

/-- `os.path.join` for a relative second component on a POSIX system. -/
def pathJoin (a b : String) : String := a ++ "/" ++ b

/-- Zero-pad a number to two digits (`%m`, `%d`, `%H`, `%M`, `%S`). -/
def pad2 (n : Nat) : String :=
  if n < 10 then "0" ++ toString n else toString n

/-- Zero-pad a number to four digits (`%Y`). -/
def pad4 (n : Nat) : String :=
  if n < 10 then "000" ++ toString n
  else if n < 100 then "00" ++ toString n
  else if n < 1000 then "0" ++ toString n
  else toString n

/-- A wall-clock time truncated to whole seconds: all that
`datetime.now().strftime("%Y%m%d_%H%M%S")` can observe. -/
structure Second where
  year : Nat
  month : Nat
  day : Nat
  hour : Nat
  minute : Nat
  sec : Nat
  deriving DecidableEq

/-- `datetime.now().strftime("%Y%m%d_%H%M%S")` (line 279). -/
def strftimeSecond (t : Second) : String :=
  pad4 t.year ++ pad2 t.month ++ pad2 t.day ++ "_" ++
    pad2 t.hour ++ pad2 t.minute ++ pad2 t.sec

/-- `event.message.document.mime_type.split("/")[-1]` (line 287). -/
def extOf (mime : String) : String :=
  (pySplit mime '/').getLastD ""

/-- The mime type the handler reads in the non-voice branch. -/
def mimeOf (m : Message) : String :=
  match m.document with
  | some d => d.mime_type.getD ""
  | none => ""

/-- The audio working path (lines 283-288): `voice_{uid}_{ts}.ogg` for a
voice note, `audio_{uid}_{ts}.{ext}` for an audio document. -/
def audioPathOf (voice : Bool) (mime : String) (u : Int) (ts : String) : String :=
  if voice then pathJoin TEMP_DIR ("voice_" ++ toString u ++ "_" ++ ts ++ ".ogg")
  else pathJoin TEMP_DIR ("audio_" ++ toString u ++ "_" ++ ts ++ "." ++ extOf mime)

/-- The transcript text path (line 301). -/
def txtPathOf (u : Int) (ts : String) : String :=
  pathJoin TEMP_DIR ("transcription_" ++ toString u ++ "_" ++ ts ++ ".txt")

/-- The transcript PDF path (line 309). -/
def pdfPathOf (u : Int) (ts : String) : String :=
  pathJoin TEMP_DIR ("transcription_" ++ toString u ++ "_" ++ ts ++ ".pdf")

/-- The inputs from which one run computes its working-file names: the
message id distinguishes runs, but only `sender_id`, the naming-time second,
and the media kind feed the names. -/
structure RunInputs where
  messageId : Nat
  sender_id : Int
  namedAt : Second
  voice : Bool
  mimeType : String
  deriving DecidableEq

/-- The three working-file paths a run computes (lines 278-309). -/
def workingPaths (r : RunInputs) : String × String × String :=
  (audioPathOf r.voice r.mimeType r.sender_id (strftimeSecond r.namedAt),
   txtPathOf r.sender_id (strftimeSecond r.namedAt),
   pdfPathOf r.sender_id (strftimeSecond r.namedAt))

/-! ## Transcript preview (line 317)

```python
f"**Transcription Complete!**\n\nPreview:\n{transcription[:500]}{'...' if len(transcription) > 500 else ''}"
```
-/

/-- The marker appended when the transcript exceeds 500 characters. -/
def truncationMarker : String := "..."

/-- `transcription[:500]` followed by the conditional marker. -/
def preview (t : String) : String :=
  String.mk (t.data.take 500) ++ (if 500 < t.length then truncationMarker else "")

/-- The full completion-message text of line 317. -/
def completionMsg (t : String) : String :=
  "**Transcription Complete!**\n\nPreview:\n" ++ preview t

/-! ## Text artifact (lines 302-306) -/

/-- `'-' * 50`. -/
def sepLine : String := String.mk (List.replicate 50 '-')

/-- The header block the four `f.write` calls place before the transcript. -/
def txtHeader (dateStr : String) : String :=
  "Audio Transcription\n" ++ ("Date: " ++ dateStr ++ "\n") ++ (sepLine ++ "\n\n")

/-- The whole content of the `.txt` working file: the four `f.write` calls of
lines 303-306 in order. -/
def txtContent (dateStr transcription : String) : String :=
  txtHeader dateStr ++ transcription

/-! ## PDF renderer, `create_pdf` (lines 67-95) -/

/-- The replacement character produced by `encode("latin-1", "replace")`. -/
def replacementChar : Char := '?'

/-- `para.encode("latin-1", "replace").decode("latin-1")`: code points above
255 become `'?'`, the rest pass through. -/
def latin1Replace (s : String) : String :=
  String.mk (s.data.map (fun c => if c.toNat ≤ 255 then c else replacementChar))

/-- The fallback paragraph of the `except` branch (lines 91-93). -/
def encodingErrorNotice : String :=
  "Error encoding some characters. Please check the text file."

/-- `text.split("\n")` filtered by `if para.strip():` (lines 82-84). -/
def pdfParagraphs (text : String) : List String :=
  (pySplit text '\n').filter pyStripTruthy

/-- The body cells emitted by the `try`/`except` of lines 81-93. The oracle
`failAt` names the paragraph index at which a hypothetical internal error is
raised (`none`, or an out-of-range index, means no error): paragraphs already
emitted stay, and the fixed notice is emitted instead of propagating. -/
def renderedBody (text : String) (failAt : Option Nat) : List String :=
  match failAt with
  | none => (pdfParagraphs text).map latin1Replace
  | some i =>
    if i < (pdfParagraphs text).length then
      ((pdfParagraphs text).take i).map latin1Replace ++ [encodingErrorNotice]
    else (pdfParagraphs text).map latin1Replace

/-- The text cells of the document `create_pdf` produces: the page header
(line 45), the date cell (line 74), then the body. -/
def pdfLines (text dateStr : String) (failAt : Option Nat) : List String :=
  "Audio Transcription" :: ("Date: " ++ dateStr) :: renderedBody text failAt

/-! ## Transcription client, `transcribe_audio` (lines 54-64)

```python
try:
    with open(audio_path, "rb") as audio_file:
        transcript = openai.audio.transcriptions.create(...)
    return transcript
except Exception as e:
    logger.error(...)
    raise
```
-/

/-- File-handle operations performed by `transcribe_audio`, in order. -/
inductive FOp where
  | openBinary : String → FOp
  | providerCall : FOp
  | closeFile : String → FOp
  deriving DecidableEq

/-- `transcribe_audio`: `openFails` says whether `open` itself raises (with
message `openErr`); otherwise `provider` is the remote call's outcome. The
`with` block closes the handle before either the `return` or the propagation
of the provider error; the bare `raise` re-raises the same exception. Returns
the Python-level result and the handle-operation trace. -/
def transcribe_audio (audio_path : String) (openFails : Bool) (openErr : String)
    (provider : Except String String) : Except String String × List FOp :=
  if openFails then (Except.error openErr, [])
  else
    match provider with
    | Except.ok t =>
      (Except.ok t, [FOp.openBinary audio_path, FOp.providerCall, FOp.closeFile audio_path])
    | Except.error e =>
      (Except.error e, [FOp.openBinary audio_path, FOp.providerCall, FOp.closeFile audio_path])

/-- Handles still open after a trace of handle operations. -/
def openHandles (ops : List FOp) : List String :=
  List.foldl
    (fun hs op =>
      match op with
      | FOp.openBinary p => p :: hs
      | FOp.closeFile p => hs.erase p
      | FOp.providerCall => hs)
    [] ops

/-! ## Pipeline orchestrator, `audio_handler` (lines 256-331)

The handler body is one `try` block of sequential awaited statements; the
`except` catches any exception from any of them and sends one error message.
We model each effectful statement as a step `(event, files created on
success)`, in program order, and an oracle naming the first (and only)
statement that raises, together with the exception's `str(e)` and the
transcript returned by a successful transcription. Logging calls are ignored.
-/

/-- The user-visible / filesystem effects of the handler, one per statement. -/
inductive Ev where
  | sendText : String → Ev
  | sendFiles : String → List String → Ev
  | editStatus : String → Ev
  | deleteStatus : Ev
  | download : String → Ev
  | transcribeCall : String → Ev
  | createFile : String → Ev
  deriving DecidableEq

/-- Line 276: `"Processing your audio... Please wait."`. -/
def ackText : String := "Processing your audio... Please wait."

/-- Line 294: `"Transcribing audio with AI..."`. -/
def transcribingText : String := "Transcribing audio with AI..."

/-- Line 313: `"Sending your transcription..."`. -/
def sendingText : String := "Sending your transcription..."

/-- Lines 329-331: the error reply, containing `str(e)`. -/
def errText (e : String) : String :=
  "Error processing audio: " ++ (e ++ "\n\nPlease try again or contact support.")

/-- Outcome oracle for one run: `failStep` is the index (in `runSteps` order)
of the statement that raises, `none` (or an out-of-range index) meaning the
whole `try` body succeeds; `errMsg` is that exception's `str(e)`; `transcript`
is the string a successful `transcribe_audio` call returns. -/
structure Oracle where
  failStep : Option Nat
  errMsg : String
  transcript : String
  deriving DecidableEq

/-- The effectful statements of the `try` body (lines 276-322) in program
order, each with the working files it creates when it succeeds. -/
def runSteps (m : Message) (u : Int) (ts : String) (o : Oracle) :
    List (Ev × List String) :=
  [(Ev.sendText ackText, []),
   (Ev.download (audioPathOf m.voice (mimeOf m) u ts),
     [audioPathOf m.voice (mimeOf m) u ts]),
   (Ev.editStatus transcribingText, []),
   (Ev.transcribeCall (audioPathOf m.voice (mimeOf m) u ts), []),
   (Ev.createFile (txtPathOf u ts), [txtPathOf u ts]),
   (Ev.createFile (pdfPathOf u ts), [pdfPathOf u ts]),
   (Ev.editStatus sendingText, []),
   (Ev.sendFiles (completionMsg o.transcript) [txtPathOf u ts, pdfPathOf u ts], []),
   (Ev.deleteStatus, [])]

/-- The observable outcome of one handler invocation: the attempted events
(with a flag saying whether each succeeded), the working files created, the
working files deleted, and whether the `except` branch ran. -/
structure RunResult where
  trace : List (Ev × Bool)
  created : List String
  deleted : List String
  failed : Bool
  deriving DecidableEq

/-- One invocation of `audio_handler`. Non-admitted messages return at one of
the two early `return`s with no effects. Otherwise the steps run in order
until the oracle's failing step (whose event is attempted but fails), after
which the `except` branch sends the error reply; if no step fails, all steps
run. No statement of the handler deletes a working file. -/
def audio_handler (m : Message) (u : Int) (ts : String) (o : Oracle) : RunResult :=
  if admitted m = false then
    { trace := [], created := [], deleted := [], failed := false }
  else
    match o.failStep with
    | some k =>
      if k < (runSteps m u ts o).length then
        { trace :=
            ((runSteps m u ts o).take k).map (fun s => (s.1, true)) ++
              [(((runSteps m u ts o).getD k (Ev.deleteStatus, [])).1, false),
               (Ev.sendText (errText o.errMsg), true)]
          created := (((runSteps m u ts o).take k).map (fun s => s.2)).flatten
          deleted := []
          failed := true }
      else
        { trace := (runSteps m u ts o).map (fun s => (s.1, true))
          created := ((runSteps m u ts o).map (fun s => s.2)).flatten
          deleted := []
          failed := false }
    | none =>
      { trace := (runSteps m u ts o).map (fun s => (s.1, true))
        created := ((runSteps m u ts o).map (fun s => s.2)).flatten
        deleted := []
        failed := false }

/-- The working files a run leaves behind at termination. -/
def remaining (r : RunResult) : List String :=
  r.created.filter (fun p => !(r.deleted.contains p))

/-- The events of a run's trace, without the success flags. -/
def eventsOf (r : RunResult) : List Ev :=
  r.trace.map (fun e => e.1)

/-- The canonical in-order event sequence of a fully successful run. -/
def canonicalEvents (m : Message) (u : Int) (ts : String) (o : Oracle) : List Ev :=
  (runSteps m u ts o).map (fun s => s.1)

/-! ## Concrete fixtures for witnesses and counterexamples -/

/-- A plain voice-note message with no caption. -/
def voiceMsg : Message := { text := "", voice := true, document := none }

/-- A sample wall-clock second. -/
def sampleSecond : Second :=
  { year := 2024, month := 1, day := 2, hour := 3, minute := 4, sec := 5 }

/-- The formatted sample timestamp. -/
def ts0 : String := strftimeSecond sampleSecond

/-- An oracle under which every statement succeeds. -/
def okOracle : Oracle := { failStep := none, errMsg := "", transcript := "hello world" }

/-- An oracle under which the transcription call (step 3) raises a timeout. -/
def failOracle : Oracle :=
  { failStep := some 3, errMsg := "Request timed out", transcript := "" }

/-! ## Helper lemmas -/

/-- Truthiness guard is redundant when the pattern is nonempty: an empty
string starts with neither `"/"` nor `"audio/"`. -/
theorem bne_and_startsWith (s p : String) (hp : pyStartsWith "" p = false) :
    ((s != "") && pyStartsWith s p) = pyStartsWith s p := by
  by_cases h : s = ""
  · subst h
    simp [hp]
  · simp [bne_iff_ne, h]

/-- Unfolding of `docMimeIsAudio` as an existential. -/
theorem docMimeIsAudio_iff (od : Option MediaDocument) :
    docMimeIsAudio od = true ↔
      ∃ d mt, od = some d ∧ d.mime_type = some mt ∧
        pyStartsWith mt "audio/" = true := by
  rcases od with _ | d
  · simp [docMimeIsAudio]
  · rcases hm : d.mime_type with _ | mt
    · simp [docMimeIsAudio, hm]
    · rw [show docMimeIsAudio (some d) = ((mt != "") && pyStartsWith mt "audio/") by
        simp [docMimeIsAudio, hm]]
      rw [bne_and_startsWith mt "audio/" (by decide)]
      simp [hm]

/-- Claim C6: the classifier admits a message iff it carries a voice note, or
a document whose declared MIME type begins with `audio/`; a message whose
text begins with `/` is never admitted, and no other message is admitted. -/
theorem classifier_admits_iff (m : Message) :
    admitted m = true ↔
      pyStartsWith m.text "/" = false ∧
        (m.voice = true ∨
          ∃ d mt, m.document = some d ∧ d.mime_type = some mt ∧
            pyStartsWith mt "audio/" = true) := by
  have hcmd : isCommandText m = pyStartsWith m.text "/" := by
    unfold isCommandText
    exact bne_and_startsWith m.text "/" (by decide)
  unfold admitted
  rw [hcmd]
  cases hs : pyStartsWith m.text "/"
  · simp only [Bool.false_eq_true, if_false, Bool.or_eq_true, docMimeIsAudio_iff]
    tauto
  · simp

/-- Claim C3: the completion-message preview equals the transcript verbatim
(no marker) when it has at most 500 characters, and the first 500 characters
followed by the truncation marker when it is longer. -/
theorem preview_truncation (t : String) :
    (t.length ≤ 500 → preview t = t) ∧
    (500 < t.length →
      preview t = String.mk (t.data.take 500) ++ truncationMarker) := by
  constructor
  · intro h
    have h' : t.data.length ≤ 500 := h
    unfold preview
    rw [if_neg (by omega), List.take_of_length_le h', String.append_empty]
  · intro h
    unfold preview
    rw [if_pos h]

/-- Taking a prefix of a constant list. -/
theorem take_of_replicate {α : Type} (a : α) :
    ∀ (n m : Nat), (List.replicate m a).take n = List.replicate (min n m) a
  | 0, _ => by simp
  | _ + 1, 0 => by simp
  | n + 1, m + 1 => by
    simp [List.replicate_succ, take_of_replicate a n m, Nat.succ_min_succ]

/-- Witness for `preview_truncation`: a short transcript passes verbatim, a
501-character transcript is cut at 500 characters and marked. -/
theorem preview_truncation_witness :
    preview "hello world" = "hello world" ∧
    preview (String.mk (List.replicate 501 'a')) =
      String.mk (List.replicate 500 'a') ++ truncationMarker := by
  constructor
  · exact (preview_truncation "hello world").1 (by decide)
  · rw [(preview_truncation (String.mk (List.replicate 501 'a'))).2 (by decide)]
    rw [show (String.mk (List.replicate 501 'a')).data = List.replicate 501 'a' from rfl]
    rw [take_of_replicate]
    norm_num

/-- Claim C4: the text artifact is the header block (title line, date line,
50-dash separator, blank line) followed by the transcript verbatim, with no
character substitution (the transcript's code points are appended as-is). -/
theorem txt_artifact_verbatim (d t : String) :
    txtContent d t = txtHeader d ++ t ∧
    (txtContent d t).data = (txtHeader d).data ++ t.data ∧
    sepLine.data = List.replicate 50 '-' ∧
    txtContent "2024-01-02 03:04:05" "hello world" =
      "Audio Transcription\nDate: 2024-01-02 03:04:05\n--------------------------------------------------\n\nhello world" := by
  refine ⟨rfl, by simp [txtContent], rfl, ?_⟩
  decide

/-- Claim C2 is false on the code (a latent collision the spec's design notes
acknowledge): two distinct runs for the same user, named within the same
wall-clock second, compute identical audio, text, and PDF paths, because the
names depend only on the user id and a second-resolution timestamp. -/
theorem samesecond_path_collision :
    ({ messageId := 1, sender_id := 42, namedAt := sampleSecond, voice := true,
       mimeType := "" } : RunInputs) ≠
      { messageId := 2, sender_id := 42, namedAt := sampleSecond, voice := true,
        mimeType := "" } ∧
    workingPaths
        { messageId := 1, sender_id := 42, namedAt := sampleSecond, voice := true,
          mimeType := "" } =
      workingPaths
        { messageId := 2, sender_id := 42, namedAt := sampleSecond, voice := true,
          mimeType := "" } := by
  exact ⟨by decide, rfl⟩

/-- The naming scheme ignores everything that distinguishes two runs from the
same user in the same second. -/
theorem workingPaths_ignore_messageId (r₁ r₂ : RunInputs)
    (hu : r₁.sender_id = r₂.sender_id) (ht : r₁.namedAt = r₂.namedAt)
    (hv : r₁.voice = r₂.voice) (hm : r₁.mimeType = r₂.mimeType) :
    workingPaths r₁ = workingPaths r₂ := by
  unfold workingPaths
  rw [hu, ht, hv, hm]

/-- Claim C9: the transcription client opens the audio file in binary mode
first, returns the provider's transcript on success, re-raises the provider's
error unchanged, performs at most one provider call (no retry), and leaves no
open file handle on either path. -/
theorem transcribe_audio_spec (p oe : String) (openFails : Bool)
    (provider : Except String String) :
    openHandles (transcribe_audio p openFails oe provider).2 = [] ∧
    (openFails = false →
      (transcribe_audio p openFails oe provider).2.head? =
        some (FOp.openBinary p)) ∧
    (∀ t, openFails = false → provider = Except.ok t →
      (transcribe_audio p openFails oe provider).1 = Except.ok t) ∧
    (∀ e, openFails = false → provider = Except.error e →
      (transcribe_audio p openFails oe provider).1 = Except.error e) ∧
    (transcribe_audio p openFails oe provider).2.count FOp.providerCall ≤ 1 := by
  cases openFails
  · cases provider <;>
      simp [transcribe_audio, openHandles, List.count, List.erase_cons]
  · simp [transcribe_audio, openHandles]

/-- Witness for `transcribe_audio_spec` at concrete inputs, on both the
success and the provider-error path. -/
theorem transcribe_audio_spec_witness :
    openHandles (transcribe_audio "temp_files/a.ogg" false "" (Except.ok "hi")).2 = [] ∧
    (transcribe_audio "temp_files/a.ogg" false "" (Except.ok "hi")).2.head? =
      some (FOp.openBinary "temp_files/a.ogg") ∧
    (transcribe_audio "temp_files/a.ogg" false "" (Except.ok "hi")).1 = Except.ok "hi" ∧
    (transcribe_audio "temp_files/a.ogg" false "" (Except.error "timeout")).1 =
      Except.error "timeout" ∧
    openHandles (transcribe_audio "temp_files/a.ogg" false "" (Except.error "timeout")).2 = [] :=
  ⟨(transcribe_audio_spec "temp_files/a.ogg" "" false (Except.ok "hi")).1,
   (transcribe_audio_spec "temp_files/a.ogg" "" false (Except.ok "hi")).2.1 rfl,
   (transcribe_audio_spec "temp_files/a.ogg" "" false (Except.ok "hi")).2.2.1 "hi" rfl rfl,
   (transcribe_audio_spec "temp_files/a.ogg" "" false (Except.error "timeout")).2.2.2.1
     "timeout" rfl rfl,
   (transcribe_audio_spec "temp_files/a.ogg" "" false (Except.error "timeout")).1⟩

/-- `runSteps` always has nine statements. -/
theorem runSteps_length (m : Message) (u : Int) (ts : String) (o : Oracle) :
    (runSteps m u ts o).length = 9 := by
  simp [runSteps]

/-- Claim C1 is false on the code: a fully successful run reaches its end
with all three working files still present — the handler never deletes them
(it logs them as saved instead). -/
theorem cleanup_claim_refuted :
    (audio_handler voiceMsg 42 ts0 okOracle).failed = false ∧
    remaining (audio_handler voiceMsg 42 ts0 okOracle) =
      ["temp_files/voice_42_20240102_030405.ogg",
       "temp_files/transcription_42_20240102_030405.txt",
       "temp_files/transcription_42_20240102_030405.pdf"] ∧
    remaining (audio_handler voiceMsg 42 ts0 okOracle) ≠ [] := by
  decide

/-- Claim C1 amended: no run ever deletes a working file; on a successful run
all three working files (audio, text, PDF) are created and all of them remain
when the run terminates. -/
theorem no_working_file_deleted (m : Message) (u : Int) (ts : String) (o : Oracle) :
    (audio_handler m u ts o).deleted = [] ∧
    (admitted m = true → (audio_handler m u ts o).failed = false →
      remaining (audio_handler m u ts o) =
        [audioPathOf m.voice (mimeOf m) u ts, txtPathOf u ts, pdfPathOf u ts]) := by
  cases hadm : admitted m with
  | false => simp [audio_handler, hadm]
  | true =>
    cases hfs : o.failStep with
    | none => simp [audio_handler, hadm, hfs, runSteps, remaining]
    | some k =>
      by_cases hk : k < 9
      · simp [audio_handler, hadm, hfs, hk, runSteps, remaining]
      · simp [audio_handler, hadm, hfs, hk, runSteps, remaining]

/-- Witness for `no_working_file_deleted` on a concrete successful run. -/
theorem no_working_file_deleted_witness :
    (audio_handler voiceMsg 42 ts0 okOracle).deleted = [] ∧
    remaining (audio_handler voiceMsg 42 ts0 okOracle) =
      [audioPathOf voiceMsg.voice (mimeOf voiceMsg) 42 ts0,
       txtPathOf 42 ts0, pdfPathOf 42 ts0] :=
  ⟨(no_working_file_deleted voiceMsg 42 ts0 okOracle).1,
   (no_working_file_deleted voiceMsg 42 ts0 okOracle).2 (by decide) (by decide)⟩

/-- Claim C7's cleanup clause is false on the code: a run that fails at the
transcription step sends the error reply but terminates with the downloaded
audio file still present (no CleaningUp stage exists). -/
theorem failure_cleanup_refuted :
    (audio_handler voiceMsg 42 ts0 failOracle).failed = true ∧
    remaining (audio_handler voiceMsg 42 ts0 failOracle) =
      ["temp_files/voice_42_20240102_030405.ogg"] ∧
    remaining (audio_handler voiceMsg 42 ts0 failOracle) ≠ [] := by
  decide

/-- Claim C7 amended: on any failure the user is sent a message consisting of
a fixed prefix, the captured cause's text `str(e)`, and a fixed suffix — but
the run terminates without deleting any working file. -/
theorem failure_reported_no_cleanup (m : Message) (u : Int) (ts : String)
    (o : Oracle) (k : Nat) (hadm : admitted m = true) (hfs : o.failStep = some k)
    (hk : k < 9) :
    (Ev.sendText ("Error processing audio: " ++
        (o.errMsg ++ "\n\nPlease try again or contact support.")), true) ∈
      (audio_handler m u ts o).trace ∧
    (audio_handler m u ts o).failed = true ∧
    (audio_handler m u ts o).deleted = [] := by
  simp [audio_handler, hadm, hfs, runSteps, hk, errText]

/-- Witness for `failure_reported_no_cleanup` on a concrete failing run. -/
theorem failure_reported_no_cleanup_witness :
    (Ev.sendText ("Error processing audio: " ++
        ("Request timed out" ++ "\n\nPlease try again or contact support.")), true) ∈
      (audio_handler voiceMsg 42 ts0 failOracle).trace ∧
    (audio_handler voiceMsg 42 ts0 failOracle).failed = true ∧
    (audio_handler voiceMsg 42 ts0 failOracle).deleted = [] :=
  failure_reported_no_cleanup voiceMsg 42 ts0 failOracle 3 (by decide) rfl (by decide)

/-- Claim C8: within one run the stages execute strictly sequentially in
program order. The canonical statement sequence is exactly acknowledgment,
download, status edit, transcription, text render, PDF render, status edit,
delivery, status deletion; every actual trace is a prefix of it (followed
only by the error reply on a failure), and the acknowledgment is always the
very first event, before any blocking work. -/
theorem stages_strictly_sequential (m : Message) (u : Int) (ts : String)
    (o : Oracle) (hadm : admitted m = true) :
    canonicalEvents m u ts o =
      [Ev.sendText ackText,
       Ev.download (audioPathOf m.voice (mimeOf m) u ts),
       Ev.editStatus transcribingText,
       Ev.transcribeCall (audioPathOf m.voice (mimeOf m) u ts),
       Ev.createFile (txtPathOf u ts),
       Ev.createFile (pdfPathOf u ts),
       Ev.editStatus sendingText,
       Ev.sendFiles (completionMsg o.transcript) [txtPathOf u ts, pdfPathOf u ts],
       Ev.deleteStatus] ∧
    (∃ n, eventsOf (audio_handler m u ts o) = (canonicalEvents m u ts o).take n ∨
      eventsOf (audio_handler m u ts o) =
        (canonicalEvents m u ts o).take n ++ [Ev.sendText (errText o.errMsg)]) ∧
    (eventsOf (audio_handler m u ts o)).head? = some (Ev.sendText ackText) := by
  refine ⟨by simp [canonicalEvents, runSteps], ?_, ?_⟩
  · cases hfs : o.failStep with
    | none =>
      exact ⟨9, Or.inl (by
        simp [audio_handler, hadm, hfs, eventsOf, canonicalEvents, runSteps])⟩
    | some k =>
      by_cases hk : k < 9
      · refine ⟨k + 1, Or.inr ?_⟩
        interval_cases k <;>
          simp [audio_handler, hadm, hfs, eventsOf, canonicalEvents, runSteps]
      · exact ⟨9, Or.inl (by
          simp [audio_handler, hadm, hfs, hk, eventsOf, canonicalEvents, runSteps])⟩
  · cases hfs : o.failStep with
    | none =>
      simp [audio_handler, hadm, hfs, eventsOf, runSteps]
    | some k =>
      by_cases hk : k < 9
      · interval_cases k <;>
          simp [audio_handler, hadm, hfs, eventsOf, runSteps]
      · simp [audio_handler, hadm, hfs, hk, eventsOf, runSteps]

/-- Witness for `stages_strictly_sequential` on a concrete successful run. -/
theorem stages_strictly_sequential_witness :
    canonicalEvents voiceMsg 42 ts0 okOracle =
      [Ev.sendText ackText,
       Ev.download (audioPathOf voiceMsg.voice (mimeOf voiceMsg) 42 ts0),
       Ev.editStatus transcribingText,
       Ev.transcribeCall (audioPathOf voiceMsg.voice (mimeOf voiceMsg) 42 ts0),
       Ev.createFile (txtPathOf 42 ts0),
       Ev.createFile (pdfPathOf 42 ts0),
       Ev.editStatus sendingText,
       Ev.sendFiles (completionMsg okOracle.transcript) [txtPathOf 42 ts0, pdfPathOf 42 ts0],
       Ev.deleteStatus] ∧
    (∃ n, eventsOf (audio_handler voiceMsg 42 ts0 okOracle) =
        (canonicalEvents voiceMsg 42 ts0 okOracle).take n ∨
      eventsOf (audio_handler voiceMsg 42 ts0 okOracle) =
        (canonicalEvents voiceMsg 42 ts0 okOracle).take n ++
          [Ev.sendText (errText okOracle.errMsg)]) ∧
    (eventsOf (audio_handler voiceMsg 42 ts0 okOracle)).head? =
      some (Ev.sendText ackText) :=
  stages_strictly_sequential voiceMsg 42 ts0 okOracle (by decide)

/-- Claim C10: on a failed run the status message is never successfully
deleted, and every status edit in any trace is one of the two progress texts
(never a terminal text); a successful status deletion happens only on the
fully successful path, as the last event, right after the completion message
with both artifacts. -/
theorem status_message_untouched_on_failure (m : Message) (u : Int) (ts : String)
    (o : Oracle) :
    ((audio_handler m u ts o).failed = true →
      (Ev.deleteStatus, true) ∉ (audio_handler m u ts o).trace) ∧
    (∀ s b, (Ev.editStatus s, b) ∈ (audio_handler m u ts o).trace →
      s = transcribingText ∨ s = sendingText) ∧
    ((Ev.deleteStatus, true) ∈ (audio_handler m u ts o).trace →
      (audio_handler m u ts o).failed = false ∧
      (audio_handler m u ts o).trace.getLast? = some (Ev.deleteStatus, true) ∧
      (audio_handler m u ts o).trace[7]? =
        some (Ev.sendFiles (completionMsg o.transcript)
          [txtPathOf u ts, pdfPathOf u ts], true)) := by
  cases hadm : admitted m with
  | false => simp [audio_handler, hadm]
  | true =>
    cases hfs : o.failStep with
    | none =>
      refine ⟨by simp [audio_handler, hadm, hfs, runSteps], ?_, ?_⟩
      · intro s b hmem
        simp [audio_handler, hadm, hfs, runSteps] at hmem
        tauto
      · intro hmem
        simp [audio_handler, hadm, hfs, runSteps, List.getLast?]
    | some k =>
      by_cases hk : k < 9
      · refine ⟨?_, ?_, ?_⟩
        · intro hfail
          interval_cases k <;>
            simp [audio_handler, hadm, hfs, runSteps]
        · intro s b hmem
          interval_cases k <;>
            simp [audio_handler, hadm, hfs, runSteps] at hmem <;> tauto
        · intro hmem
          exfalso
          interval_cases k <;>
            simp [audio_handler, hadm, hfs, runSteps] at hmem
      · refine ⟨by simp [audio_handler, hadm, hfs, hk, runSteps], ?_, ?_⟩
        · intro s b hmem
          simp [audio_handler, hadm, hfs, hk, runSteps] at hmem
          tauto
        · intro hmem
          simp [audio_handler, hadm, hfs, hk, runSteps, List.getLast?]

/-- Witness for `status_message_untouched_on_failure`: the failing concrete
run never successfully deletes the status message; the successful concrete
run deletes it last, right after the completion message. -/
theorem status_message_untouched_witness :
    (Ev.deleteStatus, true) ∉ (audio_handler voiceMsg 42 ts0 failOracle).trace ∧
    ((audio_handler voiceMsg 42 ts0 okOracle).failed = false ∧
      (audio_handler voiceMsg 42 ts0 okOracle).trace.getLast? =
        some (Ev.deleteStatus, true) ∧
      (audio_handler voiceMsg 42 ts0 okOracle).trace[7]? =
        some (Ev.sendFiles (completionMsg okOracle.transcript)
          [txtPathOf 42 ts0, pdfPathOf 42 ts0], true)) :=
  ⟨(status_message_untouched_on_failure voiceMsg 42 ts0 failOracle).1 (by decide),
   (status_message_untouched_on_failure voiceMsg 42 ts0 okOracle).2.2 (by decide)⟩

/-- Every character emitted by the latin-1 substitution is in the single-byte
repertoire. -/
theorem latin1Replace_chars_le (q : String) :
    ∀ c ∈ (latin1Replace q).data, c.toNat ≤ 255 := by
  intro c hc
  simp [latin1Replace] at hc
  obtain ⟨x, _, hx⟩ := hc
  subst hx
  split
  · assumption
  · decide

/-- Claim C5: `create_pdf` never fails for any transcript: the document is
always non-empty, every rendered body cell consists only of single-byte
(latin-1) code points, in-repertoire characters pass through unchanged while
out-of-repertoire characters become the replacement character, and an
internal substitution error is absorbed into the fixed notice paragraph
rather than propagated. -/
theorem create_pdf_never_fails (text dateStr : String) (failAt : Option Nat) :
    pdfLines text dateStr failAt ≠ [] ∧
    (∀ p ∈ renderedBody text failAt, ∀ c ∈ p.data, c.toNat ≤ 255) ∧
    ((latin1Replace text).data.length = text.data.length ∧
      ∀ (i : Nat) (c : Char), text.data[i]? = some c →
        (latin1Replace text).data[i]? =
          some (if c.toNat ≤ 255 then c else replacementChar)) ∧
    (∀ i, failAt = some i → i < (pdfParagraphs text).length →
      encodingErrorNotice ∈ pdfLines text dateStr failAt) := by
  refine ⟨by simp [pdfLines], ?_, ⟨by simp [latin1Replace], ?_⟩, ?_⟩
  · intro p hp c hc
    have hnotice : ∀ c ∈ encodingErrorNotice.data, c.toNat ≤ 255 := by decide
    cases failAt with
    | none =>
      simp [renderedBody] at hp
      obtain ⟨q, _, hq⟩ := hp
      subst hq
      exact latin1Replace_chars_le q c hc
    | some i =>
      by_cases hi : i < (pdfParagraphs text).length
      · simp [renderedBody, hi] at hp
        rcases hp with hp' | hp'
        · have hp2 : p ∈ List.map latin1Replace (pdfParagraphs text) :=
            List.mem_of_mem_take hp'
          simp at hp2
          obtain ⟨q, _, hq⟩ := hp2
          subst hq
          exact latin1Replace_chars_le q c hc
        · subst hp'
          exact hnotice c hc
      · simp [renderedBody, hi] at hp
        obtain ⟨q, _, hq⟩ := hp
        subst hq
        exact latin1Replace_chars_le q c hc
  · intro i c h
    simp [latin1Replace, List.getElem?_map, h]
  · intro i hfa hi
    subst hfa
    simp [pdfLines, renderedBody, hi]

/-- Witness for `create_pdf_never_fails` on a transcript containing a
non-latin-1 character, both with and without an internal substitution
failure. -/
theorem create_pdf_never_fails_witness :
    pdfLines "hëllo€" "2024-01-02 03:04:05" (some 0) ≠ [] ∧
    encodingErrorNotice ∈ pdfLines "hëllo€" "2024-01-02 03:04:05" (some 0) ∧
    (latin1Replace "hëllo€").data[0]? =
      some (if 'h'.toNat ≤ 255 then 'h' else replacementChar) ∧
    (latin1Replace "hëllo€").data[5]? =
      some (if '€'.toNat ≤ 255 then '€' else replacementChar) ∧
    ('h'.toNat ≤ 255) :=
  ⟨(create_pdf_never_fails "hëllo€" "2024-01-02 03:04:05" (some 0)).1,
   (create_pdf_never_fails "hëllo€" "2024-01-02 03:04:05" (some 0)).2.2.2 0 rfl
     (by decide),
   (create_pdf_never_fails "hëllo€" "2024-01-02 03:04:05" (some 0)).2.2.1.2 0 'h'
     (by decide),
   (create_pdf_never_fails "hëllo€" "2024-01-02 03:04:05" (some 0)).2.2.1.2 5 '€'
     (by decide),
   (create_pdf_never_fails "hëllo€" "2024-01-02 03:04:05" (none)).2.1
     (latin1Replace "hëllo€") (by decide) 'h' (by decide)⟩

/-- Witness for `classifier_admits_iff`: a plain voice note satisfies the
right-hand side, so it is admitted; conversely a command-prefixed message is
characterised as not admitted. -/
theorem classifier_admits_iff_witness :
    admitted voiceMsg = true ∧
    ¬ admitted { text := "/start", voice := true, document := none } = true :=
  ⟨(classifier_admits_iff voiceMsg).mpr ⟨by decide, Or.inl rfl⟩,
   fun h => by
    have h2 := (classifier_admits_iff
      { text := "/start", voice := true, document := none }).mp h
    exact absurd h2.1 (by decide)⟩
